/- Verification of the gm_ollama bridge (src/src/lib.rs): a shallow embedding of
   the module's Lua-facing entry points, its liveness cache, and its per-tick
   callback drain, together with proofs of the specified properties.

   Modelling conventions:
   * Lua argument values and Lua stack/type tests are modelled by the `LuaArg`
     inductive and index functions mirroring the gmod crate's semantics
     (`check_string` accepts strings and numbers, `to_number` yields 0 on
     non-convertible values, a type test beyond the top of the stack is false).
   * Lua numbers and the u64-to-f64 casts are idealized as exact integers; f64
     embedding payloads (never inspected by the bridge) are kept as an opaque
     type parameter `F`.
   * Time (std::time::Instant) is modelled as a natural-number timestamp in
     seconds; `elapsed` becomes truncated subtraction from the current time.
   * Spawning a detached background thread is modelled by a Boolean "spawned"
     component (for the liveness refresh) or by the `.spawned` dispatch result
     carrying the registered callback reference, the HTTP client in use, the
     request URL and the request payload.
   * serde_json `details` fields, which are decoded but never forwarded to the
     host, are omitted from the record types. -/

import Mathlib

namespace GmOllama

/-! ## Lua argument values and the stack primitives used by the module -/

/-- A Lua value as seen from the stack: nil, boolean, number (idealized as an
integer), string, table (array part plus hash part), or a function (identified
by an opaque id standing for the value's identity in the registry). -/
inductive LuaArg where
  | nil
  | boolean (b : Bool)
  | num (n : Int)
  | str (s : String)
  | table (arr : List LuaArg) (hash : List (String × LuaArg))
  | fn (id : Nat)

/-- The value at stack position `i` (1-based); beyond the top there is no
value, which every type test treats as failing, so `.nil` is an adequate
default for the guarded uses in this module. -/
def argVal (args : List LuaArg) (i : Nat) : LuaArg :=
  args.getD (i - 1) .nil

/-- `lua_gettop`: the number of arguments of the call. -/
def get_top (args : List LuaArg) : Nat := args.length

/-- `lua.is_nil(i)` (only used in the source under a `get_top` guard). -/
def is_nil (args : List LuaArg) (i : Nat) : Bool :=
  match argVal args i with
  | .nil => true
  | _ => false

/-- `lua.is_table(i)`. -/
def is_table (args : List LuaArg) (i : Nat) : Bool :=
  match argVal args i with
  | .table _ _ => true
  | _ => false

/-- `lua.is_function(i)`. -/
def is_function (args : List LuaArg) (i : Nat) : Bool :=
  match argVal args i with
  | .fn _ => true
  | _ => false

/-- The registry reference obtained by `lua.push_value(i); lua.reference()`,
modelled by the function value's id. -/
def fn_id (args : List LuaArg) (i : Nat) : Nat :=
  match argVal args i with
  | .fn id => id
  | _ => 0

/-- `luaL_checkstring` on a single value: accepts a string, converts a number,
raises a Lua error otherwise. -/
def check_string_val (a : LuaArg) : Except String String :=
  match a with
  | .str s => .ok s
  | .num n => .ok (toString n)
  | _ => .error "string expected"

/-- `lua.check_string(i)`. -/
def check_string (args : List LuaArg) (i : Nat) : Except String String :=
  check_string_val (argVal args i)

/-- `lua.to_number(i)`: numbers convert, numeric strings parse, everything
else yields 0. -/
def to_number (args : List LuaArg) (i : Nat) : Int :=
  match argVal args i with
  | .num n => n
  | .str s => s.toInt?.getD 0
  | _ => 0

/-- `lua.get_string(-1)` on a single value (lua_tolstring): strings and
numbers convert, everything else yields none. -/
def lua_tostring_val (a : LuaArg) : Option String :=
  match a with
  | .str s => some s
  | .num n => some (toString n)
  | _ => none

/-- `lua.get_field` on a table's hash part (first binding wins, nil when
absent). -/
def lookup_field (h : List (String × LuaArg)) (name : String) : LuaArg :=
  match h with
  | [] => .nil
  | (k, v) :: rest => if k = name then v else lookup_field rest name

/-- Whether the last argument of the call is nil (the condition the chat
message loop's exit test actually inspects, see `ollama_chat`). -/
def last_arg_is_nil (args : List LuaArg) : Bool :=
  match args.getLast? with
  | some .nil => true
  | _ => false

/-! ## Model-name normalization -/

/-- `normalize_model_name`: append `:latest` when the name carries no tag
separator, keep it unchanged otherwise (Rust `str::contains(':')` is the
character test on the name). -/
def normalize_model_name (model_name : String) : String :=
  if model_name.data.contains ':' then
    model_name
  else
    model_name ++ ":latest"

/-! ## Configuration, HTTP client, and the process-wide state they live in -/

/-- `OllamaConfig { base_url, timeout }` (timeout in seconds). -/
structure OllamaConfig where
  base_url : String
  timeout : Nat
deriving Repr

/-- `OllamaConfig::default()`. -/
def OllamaConfig.default : OllamaConfig :=
  { base_url := "http://localhost:11434", timeout := 30 }

/-- The reqwest client, characterized by the timeout it was built with. -/
structure Client where
  timeout : Nat
deriving Repr

/-- The `CONFIG` and `CLIENT` process-wide singletons (None = not yet
initialized / discarded). -/
structure GlobalState where
  config : Option OllamaConfig
  client : Option Client

/-- `get_config()`: lazily falls back to the default configuration. -/
def get_config (s : GlobalState) : OllamaConfig :=
  s.config.getD OllamaConfig.default

/-- `get_client()`: returns the cached client, or lazily builds one from the
current configuration's timeout and caches it. -/
def get_client (s : GlobalState) : Client × GlobalState :=
  match s.client with
  | some c => (c, s)
  | none =>
    let c : Client := { timeout := (get_config s).timeout }
    (c, { s with client := some c })

/-- `ollama_set_config`: `check_string(1)` for the base url; the timeout is
`to_number(2) as u64` when a second non-nil argument is present and 30
otherwise; the new config is installed and the cached client is discarded.
No further validation of either value is performed. -/
def ollama_set_config (args : List LuaArg) (_s : GlobalState) :
    Except String GlobalState :=
  match check_string args 1 with
  | .error e => .error e
  | .ok base_url =>
    let timeout_secs : Nat :=
      if 2 ≤ get_top args ∧ is_nil args 2 = false then
        (to_number args 2).toNat
      else
        30
    .ok { config := some { base_url := base_url, timeout := timeout_secs },
          client := none }

/-- Modelled from the spec: the spec's ConfigurationError taxonomy speaks of a
"malformed address"; the source defines no such notion, so a minimal reading
is used — an address is malformed when it lacks an http(s) scheme prefix. -/
def spec_malformed_address (s : String) : Bool :=
  !(s.data.take 7 == "http://".data || s.data.take 8 == "https://".data)

/-! ## Request payloads built by the dispatch entry points -/

/-- `GenerateRequest` (the always-None serde `options` map is omitted). -/
structure GenerateRequest where
  model : String
  prompt : String
  stream : Option Bool
  system : Option String
  template : Option String
  context : Option (List Int)

/-- `ChatMessage { role, content }`. -/
structure ChatMessage where
  role : String
  content : String

/-- `ChatRequest` (the always-None serde `options` map is omitted). -/
structure ChatRequest where
  model : String
  messages : List ChatMessage
  stream : Option Bool

/-- `ShowRequest { name }`. -/
structure ShowRequest where
  name : String

/-- The `input` field of `EmbedRequest`: one string or an array of strings. -/
inductive EmbedInput where
  | single (s : String)
  | multi (l : List String)

/-- `EmbedRequest` (the always-None serde `options` map is omitted). -/
structure EmbedRequest where
  model : String
  input : EmbedInput
  truncate : Option Bool

/-- The body handed to the background unit of work, one shape per endpoint
(GET endpoints carry no body). -/
inductive RequestPayload where
  | generate (r : GenerateRequest)
  | chat (r : ChatRequest)
  | listModels
  | showModel (r : ShowRequest)
  | embed (r : EmbedRequest)
  | runningModels

/-- What a dispatch entry point hands to the background thread it spawns:
the registered callback reference, the client captured for the call, the
request URL and the payload. -/
structure SpawnedOp where
  callback_ref : Nat
  client : Client
  url : String
  request : RequestPayload

/-- Outcome of a dispatch entry point on the host thread: a synchronous Lua
error (raised before anything is registered or spawned), a successful return
with one background unit of work spawned, or non-termination. -/
inductive DispatchResult where
  | luaError (msg : String)
  | spawned (op : SpawnedOp) (s : GlobalState)
  | hang

/-! ## The dispatch entry points -/

/-- `ollama_generate`: check_string(1) normalized, check_string(2), optional
check_string(3) system prompt, then the required callback at 4; on success the
spawned unit carries the POST /api/generate request. -/
def ollama_generate (args : List LuaArg) (s : GlobalState) : DispatchResult :=
  match check_string args 1 with
  | .error e => .luaError e
  | .ok m =>
  let model := normalize_model_name m
  match check_string args 2 with
  | .error e => .luaError e
  | .ok prompt =>
  match (if 3 ≤ get_top args ∧ is_nil args 3 = false then
           (check_string args 3).map some
         else
           .ok none) with
  | .error e => .luaError e
  | .ok system =>
  if get_top args < 4 ∨ is_function args 4 = false then
    .luaError "Callback function is required"
  else
    let request : GenerateRequest :=
      { model := model, prompt := prompt, stream := some false,
        system := system, template := none, context := none }
    let cs := get_client s
    .spawned { callback_ref := fn_id args 4, client := cs.1,
               url := (get_config cs.2).base_url ++ "/api/generate",
               request := .generate request } cs.2

/-- The chat message loop's treatment of table entry 1: an entry that is a
table contributes a message when both its `role` and `content` fields convert
to strings. -/
def chat_extract_first (t : LuaArg) : List ChatMessage :=
  match t with
  | .table arr _ =>
    match arr.getD 0 .nil with
    | .table _ h =>
      match lua_tostring_val (lookup_field h "role"),
            lua_tostring_val (lookup_field h "content") with
      | some role, some content => [{ role := role, content := content }]
      | _, _ => []
    | _ => []
  | _ => []

/-- `ollama_chat`. The source's message loop pops each table entry *before*
testing `lua.is_nil(-1)`, so the exit test inspects the call's last stack
argument, not the entry: the loop terminates (and then only after handling
table index 1) exactly when the last argument of the call is nil, and spins
forever otherwise (`.hang`). When it does break, the extra `lua.pop()` removes
that trailing nil argument, so the subsequent `get_top` is one less; the
absolute-index test `is_function(3)` is unaffected for calls of length ≥ 4 and
sees the popped (nil) slot for calls of length 3. -/
def ollama_chat (args : List LuaArg) (s : GlobalState) : DispatchResult :=
  match check_string args 1 with
  | .error e => .luaError e
  | .ok m =>
  let model := normalize_model_name m
  if is_table args 2 = false then
    .luaError "Second argument must be a table of messages"
  else if last_arg_is_nil args = false then
    .hang
  else
    let messages := chat_extract_first (argVal args 2)
    if get_top args - 1 < 3 ∨ is_function args 3 = false then
      .luaError "Callback function is required"
    else
      let request : ChatRequest :=
        { model := model, messages := messages, stream := some false }
      let cs := get_client s
      .spawned { callback_ref := fn_id args 3, client := cs.1,
                 url := (get_config cs.2).base_url ++ "/api/chat",
                 request := .chat request } cs.2

/-- `ollama_list_models`: requires the callback at 1; GET /api/tags. -/
def ollama_list_models (args : List LuaArg) (s : GlobalState) : DispatchResult :=
  if get_top args < 1 ∨ is_function args 1 = false then
    .luaError "Callback function is required"
  else
    let cs := get_client s
    .spawned { callback_ref := fn_id args 1, client := cs.1,
               url := (get_config cs.2).base_url ++ "/api/tags",
               request := .listModels } cs.2

/-- `ollama_get_model_info`: check_string(1) normalized, callback at 2;
POST /api/show with the normalized name. -/
def ollama_get_model_info (args : List LuaArg) (s : GlobalState) :
    DispatchResult :=
  match check_string args 1 with
  | .error e => .luaError e
  | .ok m =>
  let model_name := normalize_model_name m
  if get_top args < 2 ∨ is_function args 2 = false then
    .luaError "Callback function is required"
  else
    let cs := get_client s
    .spawned { callback_ref := fn_id args 2, client := cs.1,
               url := (get_config cs.2).base_url ++ "/api/show",
               request := .showModel { name := model_name } } cs.2

/-- `ollama_is_model_available`: check_string(1) normalized, callback at 2;
GET /api/tags (the availability test against the normalized name happens in
the background unit after decoding). -/
def ollama_is_model_available (args : List LuaArg) (s : GlobalState) :
    DispatchResult :=
  match check_string args 1 with
  | .error e => .luaError e
  | .ok _ =>
  if get_top args < 2 ∨ is_function args 2 = false then
    .luaError "Callback function is required"
  else
    let cs := get_client s
    .spawned { callback_ref := fn_id args 2, client := cs.1,
               url := (get_config cs.2).base_url ++ "/api/tags",
               request := .listModels } cs.2

/-- The embeddings input loop over a table's array part: collect entries that
convert to strings, stopping at the first nil entry (this loop tests
`is_nil(-1)` before popping, so it terminates correctly). -/
def collect_embed_inputs : List LuaArg → List String
  | [] => []
  | .nil :: _ => []
  | a :: rest =>
    (match lua_tostring_val a with
     | some s => [s]
     | none => []) ++ collect_embed_inputs rest

/-- The second argument of `ollama_generate_embeddings`: a table yields the
collected array of strings, anything else goes through check_string. -/
def embed_input_of (a : LuaArg) : Except String EmbedInput :=
  match a with
  | .table arr _ => .ok (.multi (collect_embed_inputs arr))
  | a => (check_string_val a).map .single

/-- `ollama_generate_embeddings`: check_string(1) normalized, input at 2,
callback at 3; POST /api/embed. -/
def ollama_generate_embeddings (args : List LuaArg) (s : GlobalState) :
    DispatchResult :=
  match check_string args 1 with
  | .error e => .luaError e
  | .ok m =>
  let model := normalize_model_name m
  match embed_input_of (argVal args 2) with
  | .error e => .luaError e
  | .ok input =>
  if get_top args < 3 ∨ is_function args 3 = false then
    .luaError "Callback function is required"
  else
    let request : EmbedRequest :=
      { model := model, input := input, truncate := some true }
    let cs := get_client s
    .spawned { callback_ref := fn_id args 3, client := cs.1,
               url := (get_config cs.2).base_url ++ "/api/embed",
               request := .embed request } cs.2

/-- `ollama_get_running_models`: requires the callback at 1; GET /api/ps. -/
def ollama_get_running_models (args : List LuaArg) (s : GlobalState) :
    DispatchResult :=
  if get_top args < 1 ∨ is_function args 1 = false then
    .luaError "Callback function is required"
  else
    let cs := get_client s
    .spawned { callback_ref := fn_id args 1, client := cs.1,
               url := (get_config cs.2).base_url ++ "/api/ps",
               request := .runningModels } cs.2

/-! ## The liveness cache (`IsRunning`) -/

/-- `CACHE_DURATION`: two seconds. -/
def CACHE_DURATION : Nat := 2

/-- `RunningCache { is_running, last_check, first_check_done }`, with the
Instant timestamp modelled as a natural-number time. -/
structure RunningCache where
  is_running : Bool
  last_check : Nat
  first_check_done : Bool
deriving Repr

/-- Outcome of one GET /api/tags probe: the request completed with some HTTP
status (recorded as `status().is_success()`), or it failed with a network
error. -/
inductive ProbeOutcome where
  | success (http_ok : Bool)
  | failure

/-- The probe's boolean, exactly the source's match: a completed response
reports its status success bit, a network error reports false. -/
def probe_is_running (p : ProbeOutcome) : Bool :=
  match p with
  | .success http_ok => http_ok
  | .failure => false

/-- `get_running_cache()`: lazily created with `is_running = false`,
`last_check = now - CACHE_DURATION` (forcing an initial staleness), and the
first check not done. -/
def get_running_cache (c : Option RunningCache) (now : Nat) : RunningCache :=
  c.getD { is_running := false, last_check := now - CACHE_DURATION,
           first_check_done := false }

/-- The body of the thread spawned by `update_running_status_async`, as a
cache update: whatever the old cache held, the probe's boolean, the completion
time and the done flag are stored. -/
def update_running_status_async (completed_at : Nat) (p : ProbeOutcome)
    (_c : RunningCache) : RunningCache :=
  { is_running := probe_is_running p, last_check := completed_at,
    first_check_done := true }

/-- `ollama_is_running` as a step function: given the `RUNNING_CACHE`
singleton (None before first use), the current time and the outcome the probe
would produce if executed now, it returns the boolean pushed to the host, the
cache contents after the call, and whether a detached background refresh was
spawned. The first-check branch performs the probe on the calling thread
(its outcome feeds the return value directly) and never spawns; the other
branches return the cached boolean, leave the cache untouched, and spawn a
refresh exactly when the cache's age has reached `CACHE_DURATION`. -/
def ollama_is_running (cache : Option RunningCache) (now : Nat)
    (probe : ProbeOutcome) : Bool × RunningCache × Bool :=
  let c := get_running_cache cache now
  let needs_update := CACHE_DURATION ≤ now - c.last_check
  let first_check := !c.first_check_done
  if first_check then
    let actual_status := probe_is_running probe
    (actual_status,
     { is_running := actual_status, last_check := now,
       first_check_done := true },
     false)
  else if needs_update then
    (c.is_running, c, true)
  else
    (c.is_running, c, false)

/-! ## The callback queue and the per-tick drain (`process_callbacks`)

The type parameter `F` stands for IEEE f64 embedding values, which the bridge
moves around without ever inspecting. -/

/-- `ModelInfo` as decoded from /api/tags (`details`, never forwarded, is
omitted). -/
structure ModelInfo where
  name : String
  modified_at : String
  size : Nat
  digest : String

/-- `RunningModelInfo` as decoded from /api/ps (`details`, never forwarded,
is omitted). -/
structure RunningModelInfo where
  name : String
  model : String
  size : Nat
  digest : String
  expires_at : Option String
  size_vram : Option Nat

/-- `CallbackData`: the tagged outcome variants queued by the background
units, one success shape per operation kind plus the generic error. -/
inductive CallbackData (F : Type) where
  | generate (response : String) (model : String)
  | chat (content : String) (role : String) (model : String)
  | listModels (models : List ModelInfo)
  | getModelInfo (license : String) (modelfile : String) (parameters : String)
      (template : String)
  | isModelAvailable (is_available : Bool)
  | embeddings (model : String) (embeddings : List (List F))
  | getRunningModels (models : List RunningModelInfo)
  | error (message : String)

/-- `CallbackResult { callback_ref, data }`. -/
structure CallbackResult (F : Type) where
  callback_ref : Int
  data : CallbackData F

/-- A Lua value as pushed by the drain loop when building a continuation's
arguments. -/
inductive LuaValue (F : Type) where
  | nil
  | boolean (b : Bool)
  | num (x : Int)
  | flt (x : F)
  | str (s : String)
  | table (arr : List (LuaValue F)) (fields : List (String × LuaValue F))

/-- Whether a pushed value is a table. -/
def LuaValue.isTable {F : Type} (v : LuaValue F) : Bool :=
  match v with
  | .table _ _ => true
  | _ => false

/-- The per-model table built for a `ListModels` result (fields in push
order; the u64 size cast to f64 is idealized as exact). -/
def modelInfoTable (F : Type) (m : ModelInfo) : LuaValue F :=
  .table [] [("name", .str m.name), ("modified_at", .str m.modified_at),
             ("size", .num (m.size : Int)), ("digest", .str m.digest)]

/-- The per-model table built for a `GetRunningModels` result: the four
mandatory fields, then `expires_at` and `size_vram` only when present. -/
def runningModelTable (F : Type) (m : RunningModelInfo) : LuaValue F :=
  .table []
    ([("name", .str m.name), ("model", .str m.model),
      ("size", .num (m.size : Int)), ("digest", .str m.digest)] ++
     (match m.expires_at with
      | some e => [("expires_at", .str e)]
      | none => []) ++
     (match m.size_vram with
      | some v => [("size_vram", .num (v : Int))]
      | none => []))

/-- The two arguments pushed for the continuation in each arm of the drain
loop's match: `(nil, payload)` for the success variants — a table for every
kind except `isModelAvailable`, which pushes a bare boolean — and
`(message, nil)` for the error variant. -/
def callback_args {F : Type} (d : CallbackData F) :
    Option String × Option (LuaValue F) :=
  match d with
  | .generate response model =>
    (none, some (.table [] [("response", .str response),
                            ("model", .str model)]))
  | .chat content role model =>
    (none, some (.table [] [("content", .str content), ("role", .str role),
                            ("model", .str model)]))
  | .listModels models =>
    (none, some (.table (models.map (modelInfoTable F)) []))
  | .getModelInfo license modelfile parameters template =>
    (none, some (.table [] [("license", .str license),
                            ("modelfile", .str modelfile),
                            ("parameters", .str parameters),
                            ("template", .str template)]))
  | .isModelAvailable is_available =>
    (none, some (.boolean is_available))
  | .embeddings model embeddings =>
    (none, some (.table []
      [("model", .str model),
       ("embeddings", .table (embeddings.map (fun e => .table (e.map .flt) []))
          [])]))
  | .getRunningModels models =>
    (none, some (.table (models.map (runningModelTable F)) []))
  | .error message =>
    (some message, none)

/-- The host-visible events of one drain pass: a continuation invocation with
its two arguments, a non-fatal error report (ErrorNoHaltWithStack reached via
the pcall error handler), and the release of a registry reference. -/
inductive LuaEvent (F : Type) where
  | invoke (ref : Int) (err : Option String) (result : Option (LuaValue F))
  | errorReported (ref : Int)
  | dereference (ref : Int)

/-- Event classifier: invocation. -/
def LuaEvent.isInvoke {F : Type} (e : LuaEvent F) : Bool :=
  match e with
  | .invoke _ _ _ => true
  | _ => false

/-- Event classifier: reference release. -/
def LuaEvent.isDeref {F : Type} (e : LuaEvent F) : Bool :=
  match e with
  | .dereference _ => true
  | _ => false

/-- Event classifier: non-fatal error report. -/
def LuaEvent.isErrorReported {F : Type} (e : LuaEvent F) : Bool :=
  match e with
  | .errorReported _ => true
  | _ => false

/-- The body of the drain loop for one queued entry: push the error handler,
fetch the continuation from its reference, push the two arguments from the
matching arm, `pcall` it — a continuation that raises is reported through the
error handler and the error is otherwise discarded — then pop the handler and
release the reference. `fails` tells whether the host continuation behind a
reference raises when invoked with the given arguments. -/
def run_entry {F : Type}
    (fails : Int → Option String → Option (LuaValue F) → Bool)
    (r : CallbackResult F) : List (LuaEvent F) :=
  let a := callback_args r.data
  LuaEvent.invoke r.callback_ref a.1 a.2 ::
    ((if fails r.callback_ref a.1 a.2 then
        [LuaEvent.errorReported r.callback_ref]
      else
        []) ++
     [LuaEvent.dereference r.callback_ref])

/-- `process_callbacks`: drain every queued entry in order, running the loop
body on each; returns the event trace of the pass and the queue contents it
leaves behind (`drain(..)` empties the vector). -/
def process_callbacks {F : Type}
    (fails : Int → Option String → Option (LuaValue F) → Bool) :
    List (CallbackResult F) → List (LuaEvent F) × List (CallbackResult F)
  | [] => ([], [])
  | r :: rest =>
    let t := process_callbacks fails rest
    (run_entry fails r ++ t.1, t.2)

/-! ## Helper lemmas about the drain trace -/

/-- The drain leaves the queue empty whatever it contained. -/
theorem process_callbacks_queue_empty {F : Type}
    (fails : Int → Option String → Option (LuaValue F) → Bool)
    (q : List (CallbackResult F)) : (process_callbacks fails q).2 = [] := by
  induction q with
  | nil => rfl
  | cons r rest ih => simpa [process_callbacks] using ih

/-- One loop body contributes exactly one invocation event, carrying the
arguments of the entry's variant. -/
theorem run_entry_filter_invoke {F : Type}
    (fails : Int → Option String → Option (LuaValue F) → Bool)
    (r : CallbackResult F) :
    (run_entry fails r).filter LuaEvent.isInvoke =
      [LuaEvent.invoke r.callback_ref (callback_args r.data).1
        (callback_args r.data).2] := by
  by_cases h : fails r.callback_ref (callback_args r.data).1
      (callback_args r.data).2 <;>
    simp [run_entry, h, LuaEvent.isInvoke]

/-- One loop body contributes exactly one reference release. -/
theorem run_entry_filter_deref {F : Type}
    (fails : Int → Option String → Option (LuaValue F) → Bool)
    (r : CallbackResult F) :
    (run_entry fails r).filter LuaEvent.isDeref =
      [LuaEvent.dereference r.callback_ref] := by
  by_cases h : fails r.callback_ref (callback_args r.data).1
      (callback_args r.data).2 <;>
    simp [run_entry, h, LuaEvent.isDeref]

/-- The invocation events of a drain pass, in order: one per queued entry,
with that entry's arguments. -/
theorem trace_filter_invoke {F : Type}
    (fails : Int → Option String → Option (LuaValue F) → Bool)
    (q : List (CallbackResult F)) :
    (process_callbacks fails q).1.filter LuaEvent.isInvoke =
      q.map (fun r => LuaEvent.invoke r.callback_ref (callback_args r.data).1
        (callback_args r.data).2) := by
  induction q with
  | nil => rfl
  | cons r rest ih =>
    simp [process_callbacks, List.filter_append, run_entry_filter_invoke, ih]

/-- The reference releases of a drain pass, in order: one per queued entry. -/
theorem trace_filter_deref {F : Type}
    (fails : Int → Option String → Option (LuaValue F) → Bool)
    (q : List (CallbackResult F)) :
    (process_callbacks fails q).1.filter LuaEvent.isDeref =
      q.map (fun r => LuaEvent.dereference r.callback_ref) := by
  induction q with
  | nil => rfl
  | cons r rest ih =>
    simp [process_callbacks, List.filter_append, run_entry_filter_deref, ih]

/-- The non-fatal error reports of a drain pass: exactly the entries whose
continuation raises. -/
theorem trace_filter_error_reports {F : Type}
    (fails : Int → Option String → Option (LuaValue F) → Bool)
    (q : List (CallbackResult F)) :
    (process_callbacks fails q).1.filter LuaEvent.isErrorReported =
      (q.filter (fun r => fails r.callback_ref (callback_args r.data).1
          (callback_args r.data).2)).map
        (fun r => LuaEvent.errorReported r.callback_ref) := by
  induction q with
  | nil => rfl
  | cons r rest ih =>
    by_cases h : fails r.callback_ref (callback_args r.data).1
        (callback_args r.data).2 <;>
      simp [process_callbacks, run_entry, List.filter_append, h, ih,
        LuaEvent.isErrorReported, LuaEvent.isInvoke, LuaEvent.isDeref]

/-- Prefix counts compose across an append when each part satisfies the
prefix inequality on its own. -/
theorem countP_take_le_append {α : Type} (p q' : α → Bool) (u v : List α)
    (hu : ∀ n, (u.take n).countP p ≤ (u.take n).countP q')
    (hv : ∀ n, (v.take n).countP p ≤ (v.take n).countP q') :
    ∀ n, ((u ++ v).take n).countP p ≤ ((u ++ v).take n).countP q' := by
  intro n
  rw [List.take_append_eq_append_take, List.countP_append, List.countP_append]
  exact Nat.add_le_add (hu n) (hv (n - u.length))

/-- Within one loop body, no prefix releases a reference before the
invocation has happened. -/
theorem run_entry_take_counts {F : Type}
    (fails : Int → Option String → Option (LuaValue F) → Bool)
    (r : CallbackResult F) :
    ∀ n, ((run_entry fails r).take n).countP LuaEvent.isDeref ≤
      ((run_entry fails r).take n).countP LuaEvent.isInvoke := by
  intro n
  by_cases h : fails r.callback_ref (callback_args r.data).1
      (callback_args r.data).2 <;>
    rcases n with _ | _ | _ | n <;>
      simp [run_entry, h, LuaEvent.isInvoke, LuaEvent.isDeref, List.take]

/-- Over the whole drain trace, every prefix has released no more references
than it has invoked continuations: a handle is only released after its
invocation. -/
theorem trace_take_counts {F : Type}
    (fails : Int → Option String → Option (LuaValue F) → Bool)
    (q : List (CallbackResult F)) :
    ∀ n, ((process_callbacks fails q).1.take n).countP LuaEvent.isDeref ≤
      ((process_callbacks fails q).1.take n).countP LuaEvent.isInvoke := by
  induction q with
  | nil => intro n; simp [process_callbacks]
  | cons r rest ih =>
    have h := countP_take_le_append LuaEvent.isDeref LuaEvent.isInvoke
      (run_entry fails r) ((process_callbacks fails rest).1)
      (run_entry_take_counts fails r) ih
    simpa [process_callbacks] using h

/-! ## Claim theorems -/

/-- C1 (counterexample). The claim states that every success variant is
delivered with arguments `(nil, result-table)`; the `IsModelAvailable`
variant is delivered with a bare boolean in the result slot, not a table:
draining a queue holding one such entry invokes the continuation with
`(nil, boolean true)`. -/
theorem isModelAvailable_result_not_a_table :
    (process_callbacks (fun _ _ _ => false)
        ([{ callback_ref := 7, data := .isModelAvailable true }] :
          List (CallbackResult Unit))).1 =
      [.invoke 7 none (some (.boolean true)), .dereference 7] ∧
    LuaValue.isTable ((LuaValue.boolean true : LuaValue Unit)) = false :=
  ⟨rfl, rfl⟩

/-- C1 (amended). For every entry drained by `process_callbacks`, the
continuation referenced by the entry's handle is invoked exactly once — with
arguments `(nil, result)` for the success variants, where the result is a
table for every kind except `IsModelAvailable` (a bare boolean), and
`(errorMessage, nil)` for the Error variant — no reference is released before
its invocation, each reference is released exactly once, and after the drain
pass the callback queue is empty. -/
theorem process_callbacks_resolves_each_entry_once {F : Type}
    (fails : Int → Option String → Option (LuaValue F) → Bool)
    (q : List (CallbackResult F)) :
    (process_callbacks fails q).2 = [] ∧
    (process_callbacks fails q).1.filter LuaEvent.isInvoke =
      q.map (fun r => LuaEvent.invoke r.callback_ref (callback_args r.data).1
        (callback_args r.data).2) ∧
    (process_callbacks fails q).1.filter LuaEvent.isDeref =
      q.map (fun r => LuaEvent.dereference r.callback_ref) ∧
    (∀ n, ((process_callbacks fails q).1.take n).countP LuaEvent.isDeref ≤
      ((process_callbacks fails q).1.take n).countP LuaEvent.isInvoke) ∧
    (∀ d : CallbackData F,
      match d with
      | .error m => callback_args d = (some m, none)
      | .isModelAvailable b => callback_args d = (none, some (.boolean b))
      | _ => (callback_args d).1 = none ∧
          ∃ t, (callback_args d).2 = some t ∧ t.isTable = true) := by
  refine ⟨process_callbacks_queue_empty fails q, trace_filter_invoke fails q,
    trace_filter_deref fails q, trace_take_counts fails q, ?_⟩
  intro d
  cases d <;> simp [callback_args, LuaValue.isTable]

/-- C5. A failure raised inside one continuation does not prevent the
remaining queued entries of the same drain pass from being delivered: the
sequences of invocations and of reference releases are the same whatever set
of continuations raises, and each raising continuation yields exactly one
report through the host's non-fatal error channel. -/
theorem drain_isolates_continuation_failures {F : Type}
    (f g : Int → Option String → Option (LuaValue F) → Bool)
    (q : List (CallbackResult F)) :
    (process_callbacks f q).1.filter LuaEvent.isInvoke =
      (process_callbacks g q).1.filter LuaEvent.isInvoke ∧
    (process_callbacks f q).1.filter LuaEvent.isDeref =
      (process_callbacks g q).1.filter LuaEvent.isDeref ∧
    (process_callbacks f q).1.filter LuaEvent.isErrorReported =
      (q.filter (fun r => f r.callback_ref (callback_args r.data).1
          (callback_args r.data).2)).map
        (fun r => LuaEvent.errorReported r.callback_ref) := by
  refine ⟨?_, ?_, trace_filter_error_reports f q⟩
  · rw [trace_filter_invoke f q, trace_filter_invoke g q]
  · rw [trace_filter_deref f q, trace_filter_deref g q]

/-- C3. The first-ever liveness query — the cache singleton not yet created,
or created but with no completed check — feeds the real probe outcome
straight into the returned boolean (whatever boolean the cache holds),
spawns no background refresh, and populates the cache with the probe's
value, the current timestamp and the completed flag. -/
theorem first_liveness_query_probes_synchronously (now : Nat)
    (p : ProbeOutcome) (b : Bool) (t : Nat) :
    ollama_is_running none now p =
      (probe_is_running p,
       { is_running := probe_is_running p, last_check := now,
         first_check_done := true }, false) ∧
    ollama_is_running
        (some { is_running := b, last_check := t, first_check_done := false })
        now p =
      (probe_is_running p,
       { is_running := probe_is_running p, last_check := now,
         first_check_done := true }, false) := by
  constructor <;> simp [ollama_is_running, get_running_cache]

/-- C4. Once the first check has completed, a liveness query returns the
cached boolean with the cache untouched — independently of what a probe
would report, i.e. without any I/O — spawning no refresh while the cache's
age is below `CACHE_DURATION` and exactly one detached refresh once the age
has reached it; the refresh stores the probed value and a fresh timestamp. -/
theorem cached_liveness_query_nonblocking (b : Bool) (t now : Nat)
    (p : ProbeOutcome) :
    (now - t < CACHE_DURATION →
      ollama_is_running
          (some { is_running := b, last_check := t, first_check_done := true })
          now p =
        (b, { is_running := b, last_check := t, first_check_done := true },
         false)) ∧
    (CACHE_DURATION ≤ now - t →
      ollama_is_running
          (some { is_running := b, last_check := t, first_check_done := true })
          now p =
        (b, { is_running := b, last_check := t, first_check_done := true },
         true)) ∧
    (∀ (c : RunningCache) (t₂ : Nat) (o : ProbeOutcome),
      update_running_status_async t₂ o c =
        { is_running := probe_is_running o, last_check := t₂,
          first_check_done := true }) := by
  refine ⟨?_, ?_, fun c t₂ o => rfl⟩
  · intro h
    simp [ollama_is_running, get_running_cache, Nat.not_le.mpr h]
  · intro h
    simp [ollama_is_running, get_running_cache, h]

/-- C4 witness: a fresh cache (age 1 < 2) answers from the cache with no
refresh even though the probe would say "down"; a stale cache (age 5 ≥ 2)
still answers from the cache but spawns one refresh. -/
theorem cached_liveness_query_nonblocking_witness :
    ollama_is_running
        (some { is_running := true, last_check := 0, first_check_done := true })
        1 .failure =
      (true, { is_running := true, last_check := 0, first_check_done := true },
       false) ∧
    ollama_is_running
        (some { is_running := true, last_check := 0, first_check_done := true })
        5 .failure =
      (true, { is_running := true, last_check := 0, first_check_done := true },
       true) :=
  ⟨(cached_liveness_query_nonblocking true 0 1 .failure).1 (by decide),
   (cached_liveness_query_nonblocking true 0 5 .failure).2.1 (by decide)⟩

/-- C8. A background liveness refresh whose probe fails with a network error
caches `false` with a fresh timestamp; in general the refresh stores exactly
the probe's boolean, and the query interface (`ollama_is_running`) yields a
boolean by construction — no error value exists in its return type. -/
theorem refresh_failure_cached_as_not_running (t : Nat) (c : RunningCache)
    (o : ProbeOutcome) :
    update_running_status_async t .failure c =
      { is_running := false, last_check := t, first_check_done := true } ∧
    (update_running_status_async t o c).last_check = t ∧
    (update_running_status_async t o c).is_running = probe_is_running o ∧
    probe_is_running .failure = false :=
  ⟨rfl, rfl, rfl, rfl⟩

/-- C2. Evaluating `ollama_chat` at calls whose second argument is a table
shows the validation contract broken: with the continuation argument absent
(first conjunct) the call does not fail synchronously but never terminates,
because the message loop's exit test inspects the call's last stack argument
after the entry has been popped — and the same divergence swallows even a
well-formed call (second conjunct). Every other entry point does fail
synchronously, see `dispatch_rejects_missing_callback`. -/
theorem ollama_chat_missing_callback_hangs :
    ollama_chat [.str "llama3", .table [] []] { config := none, client := none }
      = .hang ∧
    ollama_chat [.str "llama3", .table [] [], .fn 0]
      { config := none, client := none } = .hang :=
  ⟨rfl, rfl⟩

/-- The six loop-free entry points honour the synchronous-validation
contract: a call whose continuation slot is absent or holds a non-function
raises a Lua error, registering nothing and spawning nothing. -/
theorem dispatch_rejects_missing_callback (s : GlobalState) (m p : String) :
    ollama_generate [.str m, .str p] s =
      .luaError "Callback function is required" ∧
    ollama_generate [.str m, .str p, .nil, .num 3] s =
      .luaError "Callback function is required" ∧
    ollama_list_models [] s = .luaError "Callback function is required" ∧
    ollama_list_models [.boolean true] s =
      .luaError "Callback function is required" ∧
    ollama_get_model_info [.str m] s =
      .luaError "Callback function is required" ∧
    ollama_is_model_available [.str m, .str p] s =
      .luaError "Callback function is required" ∧
    ollama_generate_embeddings [.str m, .str p] s =
      .luaError "Callback function is required" ∧
    ollama_get_running_models [] s = .luaError "Callback function is required" :=
  ⟨rfl, rfl, rfl, rfl, rfl, rfl, rfl, rfl⟩

/-- C6. Model-name normalization: a name with no `:` separator gets
`:latest` appended, a name already carrying a separator is returned
unchanged. -/
theorem normalize_model_name_spec (s : String) :
    (s.data.contains ':' = false → normalize_model_name s = s ++ ":latest") ∧
    (s.data.contains ':' = true → normalize_model_name s = s) := by
  constructor <;> intro h <;> simp at h <;> simp [normalize_model_name, h]

/-- C6 witness: the two examples of the specification. -/
theorem normalize_model_name_spec_witness :
    normalize_model_name "llama3" = "llama3" ++ ":latest" ∧
    normalize_model_name "llama3:8b" = "llama3:8b" :=
  ⟨(normalize_model_name_spec "llama3").1 (by decide),
   (normalize_model_name_spec "llama3:8b").2 (by decide)⟩

/-- C10. `normalize_model_name` is idempotent: its output always contains
the `:` separator, which suppresses any further appending. -/
theorem normalize_model_name_idempotent (s : String) :
    normalize_model_name (normalize_model_name s) = normalize_model_name s := by
  by_cases h : ':' ∈ s.data
  · simp [normalize_model_name, h]
  · have hd : (s ++ ":latest").data = s.data ++ (":latest").data := by
      cases s; rfl
    have hc : ':' ∈ (s ++ ":latest").data := by
      rw [hd]
      exact List.mem_append_right _ (by decide)
    simp [normalize_model_name, h, hc]

/-- C7. `SetConfig` installs the given base address, defaults the timeout to
30 seconds when the second argument is absent or nil, records a numeric
timeout as given, and discards the cached client; an operation dispatched
afterwards lazily rebuilds the client from the new timeout and addresses the
new base url. -/
theorem set_config_replaces_config_and_discards_client (addr : String)
    (t : Int) (s s₂ : GlobalState) (k : Nat) :
    ollama_set_config [.str addr] s =
      .ok { config := some { base_url := addr, timeout := 30 },
            client := none } ∧
    ollama_set_config [.str addr, .nil] s =
      .ok { config := some { base_url := addr, timeout := 30 },
            client := none } ∧
    ollama_set_config [.str addr, .num t] s =
      .ok { config := some { base_url := addr, timeout := t.toNat },
            client := none } ∧
    (ollama_set_config [.str addr, .num t] s = .ok s₂ →
      ∃ op s₃, ollama_list_models [.fn k] s₂ = .spawned op s₃ ∧
        op.url = addr ++ "/api/tags" ∧ op.client.timeout = t.toNat ∧
        op.request = .listModels ∧ op.callback_ref = k ∧
        s₃.client = some op.client) := by
  refine ⟨rfl, rfl, rfl, ?_⟩
  intro h
  cases Except.ok.inj h
  exact ⟨_, _, rfl, rfl, rfl, rfl, rfl, rfl⟩

/-- C7 witness: after replacing the config with address `http://h:1` and
timeout 5, ListModels rebuilds a client with timeout 5 and targets the new
address. -/
theorem set_config_replaces_config_and_discards_client_witness :
    ∃ op s₃,
      ollama_list_models [.fn 0]
          { config := some { base_url := "http://h:1", timeout := 5 },
            client := none } = .spawned op s₃ ∧
      op.url = "http://h:1" ++ "/api/tags" ∧
      op.client.timeout = (5 : Int).toNat ∧ op.request = .listModels ∧
      op.callback_ref = 0 ∧ s₃.client = some op.client :=
  (set_config_replaces_config_and_discards_client "http://h:1" 5
    { config := none, client := none }
    { config := some { base_url := "http://h:1", timeout := 5 },
      client := none } 0).2.2.2 rfl

/-- C9 (counterexample). A malformed address — here the string
`"not a url"`, which no reading of the spec's taxonomy can call well-formed —
together with a non-numeric timeout is accepted silently: `SetConfig`
succeeds, installing the string verbatim and coercing the timeout to 0,
instead of surfacing a synchronous ConfigurationError. -/
theorem set_config_accepts_malformed_input :
    spec_malformed_address "not a url" = true ∧
    ollama_set_config [.str "not a url", .boolean true]
        { config := none, client := none } =
      .ok { config := some { base_url := "not a url", timeout := 0 },
            client := none } :=
  ⟨by decide, rfl⟩

/-- C9 (amended). `SetConfig` performs no semantic validation: any string
address is installed verbatim (and the cached client discarded) whatever its
shape; the only synchronous error at config-set time is the host-level type
check that the address argument is a string or number. -/
theorem set_config_no_semantic_validation (addr : String)
    (rest : List LuaArg) (s : GlobalState) (a : LuaArg) :
    (∃ cfg : OllamaConfig,
      ollama_set_config (.str addr :: rest) s =
        .ok { config := some cfg, client := none } ∧ cfg.base_url = addr) ∧
    ((match a with
      | .str _ => False
      | .num _ => False
      | _ => True) →
      ∃ e, ollama_set_config (a :: rest) s = .error e) := by
  constructor
  · exact ⟨_, rfl, rfl⟩
  · intro h
    cases a with
    | str _ => exact h.elim
    | num _ => exact h.elim
    | nil => exact ⟨_, rfl⟩
    | boolean _ => exact ⟨_, rfl⟩
    | table _ _ => exact ⟨_, rfl⟩
    | fn _ => exact ⟨_, rfl⟩

/-- C9 amended witness: a nil address raises a synchronous error; a
scheme-less address is installed verbatim. -/
theorem set_config_no_semantic_validation_witness :
    (∃ cfg : OllamaConfig,
      ollama_set_config [.str "not a url"] { config := none, client := none } =
        .ok { config := some cfg, client := none } ∧
      cfg.base_url = "not a url") ∧
    ∃ e, ollama_set_config [LuaArg.nil] { config := none, client := none } =
      .error e :=
  ⟨(set_config_no_semantic_validation "not a url" []
      { config := none, client := none } .nil).1,
   (set_config_no_semantic_validation "x" [] { config := none, client := none }
      .nil).2 trivial⟩

end GmOllama
